import Mathlib

/-!
Verification of the crawl-and-analyze pipeline: a shallow embedding of the
breadth-first crawl controller (`selenium_crawler.py`), the element
classifier / locator generator / extractors (`element_parser.py`,
`enhanced_analyzer.py`) and the flow-inference heuristics
(`enhanced_analyzer.py`), with theorems settling the specification's
testable properties against those definitions.

Python strings are modelled as Lean `String` values; attribute access
(`element.get_attribute`) returns `Option String` with `none` for an absent
attribute, and Python truthiness of such a value (`if value:`) is `attrTruthy`.
String helpers (`in`, `startswith`, `endswith`, `lower`, `strip`, `split`)
are embedded as executable list-of-character functions below, restricted to
the ASCII strings the program manipulates.
-/

namespace SiteAnalyzer

/-- Python truthiness of an optional attribute value: `None` and `""` are falsy. -/
def attrTruthy : Option String → Bool
  | none => false
  | some s => !s.isEmpty

/-- Python `value or default` on an optional attribute value. -/
def pyAttrOr (o : Option String) (d : String) : String :=
  match o with
  | none => d
  | some s => if s.isEmpty then d else s

/-- Python `a or b` for strings: `b` when `a` is empty. -/
def pyOr (a b : String) : String := if a.isEmpty then b else a

/-- Contiguous-substring test on character lists. -/
def containsSub (needle : List Char) : List Char → Bool
  | [] => needle.isEmpty
  | c :: cs => needle.isPrefixOf (c :: cs) || containsSub needle cs

/-- Python `sub in s` for strings (contiguous substring). -/
def strContains (s sub : String) : Bool := containsSub sub.data s.data

/-- Python `s.startswith(p)`. -/
def strStartsWith (s p : String) : Bool := p.data.isPrefixOf s.data

/-- Python `s.endswith(p)`. -/
def strEndsWith (s p : String) : Bool := p.data.isSuffixOf s.data

/-- Python `s.lower()` for ASCII strings. -/
def lowerStr (s : String) : String := ⟨s.data.map Char.toLower⟩

/-- Python `s.strip()` for ASCII whitespace. -/
def stripStr (s : String) : String :=
  ⟨((s.data.dropWhile Char.isWhitespace).reverse.dropWhile Char.isWhitespace).reverse⟩

/-- Python `s.split()`: split on whitespace runs, dropping empty tokens. -/
def splitWsTokens (s : String) : List String :=
  ((s.data.splitOnP Char.isWhitespace).filter (fun t => !t.isEmpty)).map (fun t => ⟨t⟩)

/-- Python `s.replace("'", "\\'")` as used for locator text escaping. -/
def escapeQuotes (s : String) : String :=
  ⟨(s.data.map (fun c => if c = '\'' then ['\\', '\''] else [c])).flatten⟩

/-- A character allowed in a URL scheme (`RFC 3986` set used by `urllib`). -/
def schemeChar (c : Char) : Bool := c.isAlphanum || c == '+' || c == '-' || c == '.'

/-- Split a character list at its first colon: `(before, after)`. -/
def splitColon (acc : List Char) : List Char → Option (List Char × List Char)
  | [] => none
  | c :: cs => if c = ':' then some (acc.reverse, cs) else splitColon (c :: acc) cs

/-- The remainder of a URL after stripping a leading `scheme:` when the part
before the first colon is a syntactically valid scheme, as `urllib.parse`
does. -/
def dropUrlScheme (s : List Char) : List Char :=
  match splitColon [] s with
  | some (pre, post) =>
    if !pre.isEmpty && (pre.headD ' ').isAlpha && pre.all schemeChar then post else s
  | none => s

/-- Embeds `SeleniumCrawler.extract_domain` (selenium_crawler.py 67-78), i.e.
`urllib.parse.urlparse(url).netloc` for URLs without embedded whitespace:
after the scheme, the authority following `//` up to the next `/`, `?` or `#`
(empty when the URL has no `//` authority part). -/
def extract_domain (url : String) : String :=
  match dropUrlScheme url.data with
  | '/' :: '/' :: rest => ⟨rest.takeWhile (fun c => c ≠ '/' && c ≠ '?' && c ≠ '#')⟩
  | _ => ""

/-- The path component of a URL under the same `urllib.parse` reading: what
follows the authority, up to the first `?` or `#`. -/
def url_path (url : String) : String :=
  match dropUrlScheme url.data with
  | '/' :: '/' :: rest =>
    ⟨(rest.dropWhile (fun c => c ≠ '/' && c ≠ '?' && c ≠ '#')).takeWhile
      (fun c => c ≠ '?' && c ≠ '#')⟩
  | other => ⟨other.takeWhile (fun c => c ≠ '?' && c ≠ '#')⟩

/-- File extensions excluded from crawling (selenium_crawler.py 103). -/
def excluded_extensions : List String :=
  [".pdf", ".jpg", ".jpeg", ".png", ".gif", ".css", ".js", ".ico"]

/-- Embeds `SeleniumCrawler.should_crawl_url` (selenium_crawler.py 80-107).
`visited` is the crawler's `visited_urls` set, `domain` its `self.domain`. -/
def should_crawl_url (visited : List String) (domain : String) (url : String) : Bool :=
  if visited.contains url then false
  else if !(strContains (extract_domain url) domain) then false
  else if !(strStartsWith url "http://" || strStartsWith url "https://") then false
  else if excluded_extensions.any (fun ext => strEndsWith (lowerStr url) ext) then false
  else true

example : extract_domain "http://ex.com/page?x=1" = "ex.com" := by decide
example : extract_domain "mailto:bob@ex.com" = "" := by decide
example : url_path "http://ex.com/page?x=.pdf" = "/page" := by decide
example : should_crawl_url [] "ex.com" "http://ex.com/a" = true := by decide
example : should_crawl_url ["http://ex.com/a"] "ex.com" "http://ex.com/a" = false := by decide
example : should_crawl_url [] "ex.com" "http://ex.com/img.PNG" = false := by decide
example : should_crawl_url [] "shop.com" "http://evilshop.com/" = true := by decide

/-! ## The crawl frontier controller (`SeleniumCrawler.start_crawl`, 109-186)

The web the crawler sees is modelled as a finite association list from URL
to page; a URL that is not in the web makes `driver.get` raise
(`TimeoutException` / `WebDriverException`), which the per-page `except`
clauses catch.  `self.queue` is set to `[start_url]` and never changed, so
the `self.queue` conjunct of the `while` condition is always true; the
`current_depth <= max_depth` conjunct is encoded by the `fuel` argument,
initially `max_depth + 1`.  The state carries two instrumentation logs that
record, without influencing control flow, every URL appended to
`depth_urls[d+1]` and the length of every depth level the loop processed. -/

/-- A page of the modelled website: the element records its extraction
yields and the `href` values of its anchor tags, in document order. -/
structure WebPage where
  elems : List String
  links : List String
deriving Repr, DecidableEq

/-- The modelled website. -/
abbrev Web := List (String × WebPage)

/-- The mutable state of one `start_crawl` run. `visited` records each URL
with the depth at which it was fetched, in fetch order; `pagesVisited`
mirrors the `pages_visited` counter. -/
structure CrawlState where
  visited : List (String × Nat)
  pagesVisited : Nat
  elements : List String
  enqueuedLog : List (String × Nat)
  levelLog : List Nat
deriving Repr, DecidableEq

/-- The crawler's `visited_urls` set. -/
def CrawlState.visitedUrls (st : CrawlState) : List String := st.visited.map Prod.fst

/-- Embeds the body of the `for url in urls_at_current_depth` loop of
`start_crawl` (selenium_crawler.py 143-176): skip visited / non-crawlable
URLs, load the page (a missing page raises and is caught, contributing
nothing), mark visited, collect elements, and append every crawlable link to
the next depth level. -/
def processUrl (web : Web) (domain : String) (depth : Nat)
    (acc : CrawlState × List String) (url : String) : CrawlState × List String :=
  let st := acc.1
  if st.visitedUrls.contains url || !should_crawl_url st.visitedUrls domain url then
    acc
  else
    match web.lookup url with
    | none => acc
    | some page =>
      let visited' := st.visited ++ [(url, depth)]
      let newLinks := page.links.filter
        (fun l => !l.isEmpty && should_crawl_url (visited'.map Prod.fst) domain l)
      ({ st with
          visited := visited'
          pagesVisited := st.pagesVisited + 1
          elements := st.elements ++ page.elems
          enqueuedLog := st.enqueuedLog ++ newLinks.map (fun l => (l, depth + 1)) },
        acc.2 ++ newLinks)

/-- One depth level of `start_crawl`: process every URL at the current depth
in discovery order, starting from an empty `depth_urls[current_depth + 1]`. -/
def processLevel (web : Web) (domain : String) (depth : Nat)
    (st : CrawlState) (urls : List String) : CrawlState × List String :=
  urls.foldl (processUrl web domain depth) (st, [])

/-- Embeds the `while` loop of `start_crawl` (selenium_crawler.py 138-179). -/
def crawlLoop (web : Web) (domain : String) (maxPages : Nat) :
    Nat → Nat → List String → CrawlState → CrawlState
  | 0, _, _, st => st
  | fuel + 1, depth, level, st =>
    if st.pagesVisited < maxPages then
      let stepped :=
        processLevel web domain depth { st with levelLog := st.levelLog ++ [level.length] } level
      crawlLoop web domain maxPages fuel (depth + 1) stepped.2 stepped.1
    else st

/-- Embeds `SeleniumCrawler.start_crawl` (selenium_crawler.py 109-186) for a
run whose driver session is established, returning the final crawl state. -/
def start_crawl (web : Web) (maxPages maxDepth : Nat) (startUrl : String) : CrawlState :=
  crawlLoop web (extract_domain startUrl) maxPages (maxDepth + 1) 0 [startUrl]
    { visited := [], pagesVisited := 0, elements := [], enqueuedLog := [], levelLog := [] }

/-- A start page with three same-domain links, each a live page: with
`max_pages = 2` the budget is overrun inside depth level 1. -/
def web1 : Web :=
  [("http://ex.com/", ⟨["e0"], ["http://ex.com/a", "http://ex.com/b", "http://ex.com/c"]⟩),
   ("http://ex.com/a", ⟨[], []⟩),
   ("http://ex.com/b", ⟨[], []⟩),
   ("http://ex.com/c", ⟨[], []⟩)]

example : (start_crawl web1 2 2 "http://ex.com/").pagesVisited = 4 := by decide
example : (start_crawl web1 2 2 "http://ex.com/").levelLog = [1, 3] := by decide
example : (start_crawl web1 20 0 "http://ex.com/").visited = [("http://ex.com/", 0)] := by decide
example : (start_crawl web1 20 0 "http://ex.com/").enqueuedLog =
    [("http://ex.com/a", 1), ("http://ex.com/b", 1), ("http://ex.com/c", 1)] := by decide
example : (start_crawl web1 20 5 "http://ex.com/").pagesVisited = 4 := by decide

/-! ## Elements, classifiers and the locator generator -/

/-- Model of a Selenium `WebElement` as the analyzers read it: tag name, raw
text, attribute lookup (`get_attribute` returns `none` for an absent
attribute), the tag of the immediate parent (`find_element(By.XPATH, "..")`),
visibility and enabled state, and geometry. -/
structure WebElem where
  tag_name : String
  text : String
  attrs : List (String × String)
  parent_tag : String
  displayed : Bool
  enabledRaw : Bool
  locX : Int
  locY : Int
  width : Int
  height : Int
deriving Repr, DecidableEq

/-- Embeds `element.get_attribute(a)`. -/
def WebElem.getAttr (e : WebElem) (a : String) : Option String := e.attrs.lookup a

/-- Python `o in l` for an optional string against a string list
(`None in l` and a missing value are false). -/
def optMem (o : Option String) (l : List String) : Bool :=
  match o with
  | none => false
  | some s => l.contains s

/-- The ARIA roles recognized by `ElementParser._categorize_element`
(element_parser.py 155-156). -/
def parser_role_set : List String :=
  ["button", "link", "checkbox", "radio", "tab", "menu", "menuitem",
   "combobox", "listbox", "option", "slider", "switch"]

/-- The ARIA roles recognized by `EnhancedAnalyzer._categorize_element`
(enhanced_analyzer.py 207). -/
def enhanced_role_set : List String :=
  ["button", "link", "checkbox", "radio", "tab", "menuitem"]

/-- The `input` handling shared verbatim by both classifiers
(element_parser.py 164-171, enhanced_analyzer.py 215-222). -/
def categorize_input (t : Option String) : String :=
  if optMem t ["checkbox", "radio", "submit", "button"] then (t.getD "")
  else if optMem t ["text", "email", "password", "number", "tel", "url", "search"] then
    "input_field"
  else "input_" ++ pyAttrOr t "text"

/-- Embeds `ElementParser._categorize_element` (element_parser.py 140-194). -/
def parser_categorize (e : WebElem) : String :=
  let tag := lowerStr e.tag_name
  let role := e.getAttr "role"
  if attrTruthy role && parser_role_set.contains (role.getD "") then role.getD ""
  else if tag == "a" then "link"
  else if tag == "button" then "button"
  else if tag == "input" then categorize_input (e.getAttr "type")
  else if tag == "select" then "dropdown"
  else if tag == "textarea" then "text_area"
  else if tag == "form" then "form"
  else if (tag == "div" || tag == "span") &&
      ["button", "btn", "link", "clickable"].any
        (fun k => strContains (lowerStr ((e.getAttr "class").getD "")) k) then
    "pseudo_button"
  else if tag == "i" || tag == "svg" || tag == "img" then
    if e.parent_tag == "a" then "icon_link" else "icon"
  else "other"

/-- Embeds `EnhancedAnalyzer._categorize_element` (enhanced_analyzer.py
193-235). -/
def enhanced_categorize (e : WebElem) : String :=
  let tag := lowerStr e.tag_name
  let role := e.getAttr "role"
  if attrTruthy role && enhanced_role_set.contains (role.getD "") then role.getD ""
  else if tag == "a" then "link"
  else if tag == "button" then "button"
  else if tag == "input" then categorize_input (e.getAttr "type")
  else if tag == "select" then "dropdown"
  else if tag == "textarea" then "text_area"
  else if ["button", "btn"].any
      (fun k => strContains (lowerStr ((e.getAttr "class").getD "")) k) then
    "pseudo_button"
  else if ["dropdown", "select"].any
      (fun k => strContains (lowerStr ((e.getAttr "class").getD "")) k) then
    "pseudo_dropdown"
  else "other"

/-- The category strings documented by the spec (section 4.3): the recognized
role names, the tag categories, the verbatim input types, `input_field`,
`pseudo_button`, the icon categories and the default. `input_<type>`
categories are covered by the `input_` prefix disjunct of
`is_documented_category`. -/
def documented_categories : List String :=
  parser_role_set ++
  ["link", "button", "dropdown", "text_area", "form", "input_field",
   "checkbox", "radio", "submit", "pseudo_button", "icon_link", "icon", "other"]

/-- Decidable form of "is one of the documented category strings". -/
def is_documented_category (s : String) : Bool :=
  documented_categories.contains s || "input_".data.isPrefixOf s.data

/-- Embeds `EnhancedAnalyzer._generate_css_selector` (enhanced_analyzer.py
286-337). -/
def generate_css_selector (e : WebElem) : String :=
  if attrTruthy (e.getAttr "id") then "#" ++ (e.getAttr "id").getD ""
  else if attrTruthy (e.getAttr "data-test") then
    "[data-test='" ++ (e.getAttr "data-test").getD "" ++ "']"
  else if attrTruthy (e.getAttr "data-testid") then
    "[data-testid='" ++ (e.getAttr "data-testid").getD "" ++ "']"
  else if attrTruthy (e.getAttr "name") then
    e.tag_name ++ "[name='" ++ (e.getAttr "name").getD "" ++ "']"
  else if (e.tag_name == "input" || e.tag_name == "textarea") &&
      attrTruthy (e.getAttr "placeholder") then
    e.tag_name ++ "[placeholder='" ++ (e.getAttr "placeholder").getD "" ++ "']"
  else if attrTruthy (e.getAttr "class") &&
      !((splitWsTokens ((e.getAttr "class").getD "")).headD "").isEmpty &&
      !(strStartsWith ((splitWsTokens ((e.getAttr "class").getD "")).headD "") "ng-" ||
        strStartsWith ((splitWsTokens ((e.getAttr "class").getD "")).headD "") "ui-") then
    e.tag_name ++ "." ++ (splitWsTokens ((e.getAttr "class").getD "")).headD ""
  else if !(stripStr e.text).isEmpty && (stripStr e.text).length < 50 then
    e.tag_name ++ ":contains('" ++ escapeQuotes (stripStr e.text) ++ "')"
  else e.tag_name

/-- A concrete element used in examples and witnesses. -/
def mkElem (tag : String) (text : String) (attrs : List (String × String)) : WebElem :=
  { tag_name := tag, text := text, attrs := attrs, parent_tag := "body",
    displayed := true, enabledRaw := true, locX := 0, locY := 0, width := 10, height := 10 }

example : parser_categorize (mkElem "div" "" [("role", "button"), ("class", "btn")]) =
    "button" := by decide
example : enhanced_categorize (mkElem "div" "" [("role", "button"), ("class", "btn")]) =
    "button" := by decide
example : parser_categorize (mkElem "div" "" [("class", "dropdown")]) = "other" := by decide
example : enhanced_categorize (mkElem "div" "" [("class", "dropdown")]) =
    "pseudo_dropdown" := by decide
example : parser_categorize (mkElem "input" "" [("type", "submit")]) = "submit" := by decide
example : parser_categorize (mkElem "input" "" []) = "input_text" := by decide
example : parser_categorize (mkElem "input" "" [("type", "hidden")]) = "input_hidden" := by decide
example : is_documented_category "pseudo_dropdown" = false := by decide
example : is_documented_category "input_hidden" = true := by decide
example : generate_css_selector (mkElem "div" "" [("id", "x"), ("class", "c d")]) =
    "#x" := by decide
example : generate_css_selector (mkElem "div" "" [("class", "c d")]) = "div.c" := by decide
example : generate_css_selector (mkElem "div" "  Hi  " [("class", "ng-scope")]) =
    "div:contains('Hi')" := by decide
example : generate_css_selector (mkElem "div" "" []) = "div" := by decide
example : generate_css_selector (mkElem "button" "It's me" []) =
    "button:contains('It\\'s me')" := by decide

/-! ## Element records, extraction and possible actions -/

/-- One entry of an element record's `actions` list. -/
structure ActionRec where
  type : String
  value : Option String
  cypress : String
deriving Repr, DecidableEq

/-- The element record dictionary built by
`EnhancedAnalyzer._extract_element_data` (enhanced_analyzer.py 147-191):
the fields the flow detectors and the script generator read. -/
structure ARecord where
  tag_name : String
  text : String
  is_displayed : Bool
  is_enabled : Bool
  locX : Int
  locY : Int
  attrs : List (String × String)
  element_type : String
  css_selector : String
  actions : List ActionRec
deriving Repr, DecidableEq

/-- Embeds `record["attributes"].get(k)`. -/
def ARecord.attr (e : ARecord) (k : String) : Option String := e.attrs.lookup k

/-- Embeds `record["attributes"].get(k, d)`. -/
def ARecord.attrD (e : ARecord) (k d : String) : String := (e.attrs.lookup k).getD d

/-- Attribute allow-list of `EnhancedAnalyzer._extract_element_data`
(enhanced_analyzer.py 164-165). -/
def enhanced_attr_list : List String :=
  ["id", "class", "name", "type", "href", "value", "placeholder",
   "role", "aria-label", "data-test", "data-testid"]

/-- Attribute allow-list default of `ElementParser` (element_parser.py 39-42). -/
def parser_attr_list : List String :=
  ["id", "class", "name", "type", "href", "value", "placeholder",
   "role", "aria-label", "title", "data-testid"]

/-- Embeds the dict comprehension over the attribute allow-list: only attributes present
with a truthy value are recorded (element_parser.py 114-118,
enhanced_analyzer.py 162-168). -/
def collectAttrs (allowList : List String) (e : WebElem) : List (String × String) :=
  allowList.filterMap (fun a =>
    match e.getAttr a with
    | some v => if v.isEmpty then none else some (a, v)
    | none => none)

/-- Embeds `EnhancedAnalyzer._determine_possible_actions`
(enhanced_analyzer.py 237-284). -/
def determine_possible_actions (e : WebElem) : List ActionRec :=
  let et := enhanced_categorize e
  if ["link", "button", "submit", "pseudo_button", "pseudo_dropdown"].contains et then
    [{ type := "click", value := none,
       cypress := "cy.get('" ++ generate_css_selector e ++ "').click()" }]
  else if ["input_field", "text_area"].contains et then
    let placeholder := (e.getAttr "placeholder").getD ""
    let inputType := (e.getAttr "type").getD ""
    let sample :=
      if strContains (lowerStr inputType) "email" || strContains (lowerStr placeholder) "email" then
        "test@example.com"
      else if strContains (lowerStr inputType) "password" ||
          strContains (lowerStr placeholder) "password" then
        "Password123"
      else "Test input"
    [{ type := "input", value := some sample,
       cypress := "cy.get('" ++ generate_css_selector e ++ "').type('" ++ sample ++ "')" }]
  else if et == "dropdown" then
    [{ type := "select", value := none,
       cypress := "cy.get('" ++ generate_css_selector e ++ "').select('OPTION_VALUE')" }]
  else if et == "checkbox" || et == "radio" then
    [{ type := "check", value := none,
       cypress := "cy.get('" ++ generate_css_selector e ++ "').check()" }]
  else []

/-- The shared `is_enabled` expression of both extractors:
`element.is_enabled() if element.tag_name != 'a' else True`
(element_parser.py 102, enhanced_analyzer.py 175). -/
def anchor_is_enabled (tag : String) (raw : Bool) : Bool :=
  if tag != "a" then raw else true

/-- Embeds `EnhancedAnalyzer._extract_element_data` (enhanced_analyzer.py
147-191) for a live (non-stale) element: hidden elements are skipped, the
`is_enabled` field is `element.is_enabled() if element.tag_name != 'a' else
True` (line 175). -/
def enhanced_extract (e : WebElem) : Option ARecord :=
  if !e.displayed then none
  else some
    { tag_name := e.tag_name
      text := stripStr e.text
      is_displayed := e.displayed
      is_enabled := anchor_is_enabled e.tag_name e.enabledRaw
      locX := e.locX
      locY := e.locY
      attrs := collectAttrs enhanced_attr_list e
      element_type := enhanced_categorize e
      css_selector := generate_css_selector e
      actions := determine_possible_actions e }

/-- The element record dictionary built by
`ElementParser._extract_element_data` (element_parser.py 77-138). -/
structure PRecord where
  page_url : String
  page_title : String
  tag_name : String
  text : String
  is_displayed : Bool
  is_enabled : Bool
  locX : Int
  locY : Int
  width : Int
  height : Int
  attrs : List (String × String)
  element_type : String
deriving Repr, DecidableEq

/-- Embeds `ElementParser._extract_element_data` (element_parser.py 77-138)
for a live element; `skipHidden` is `crawler.skip_hidden_elements` (default
true), and the `is_enabled` field is `element.is_enabled() if
element.tag_name != 'a' else True` (line 102). -/
def parser_extract (skipHidden : Bool) (pageUrl pageTitle : String) (e : WebElem) :
    Option PRecord :=
  if skipHidden && !e.displayed then none
  else some
    { page_url := pageUrl
      page_title := pageTitle
      tag_name := e.tag_name
      text := stripStr e.text
      is_displayed := e.displayed
      is_enabled := anchor_is_enabled e.tag_name e.enabledRaw
      locX := e.locX
      locY := e.locY
      width := e.width
      height := e.height
      attrs := collectAttrs parser_attr_list e
      element_type := parser_categorize e }

/-! ## Flow inference (`EnhancedAnalyzer.generate_user_flows`, 339-545) -/

/-- One step of an inferred user flow. -/
structure FlowStep where
  element : String
  action : String
  value : Option String
  description : String
  cypress : String
deriving Repr, DecidableEq

/-- An inferred user flow. -/
structure UserFlow where
  name : String
  description : String
  steps : List FlowStep
deriving Repr, DecidableEq

/-- Username-field search terms of `_identify_login_flow`
(enhanced_analyzer.py 420-421). -/
def login_user_terms : List String := ["user", "email", "name", "login"]

/-- Login-button text terms of `_identify_login_flow`
(enhanced_analyzer.py 428). -/
def login_button_terms : List String := ["log in", "login", "sign in", "signin", "submit"]

/-- Embeds the field-scanning loop of `_identify_login_flow`
(enhanced_analyzer.py 404-422), returning
`(username_field, password_field)`; a later match overwrites an earlier one,
and the username branch is an `elif` of the password branch. -/
def login_scan (input_fields : List ARecord) : Option ARecord × Option ARecord :=
  input_fields.foldl
    (fun acc field =>
      let ftype := field.attrD "type" ""
      let ph := lowerStr (field.attrD "placeholder" "")
      let nm := lowerStr (field.attrD "name" "")
      if ftype == "password" || strContains nm "password" || strContains ph "password" then
        (acc.1, some field)
      else if ftype == "text" || ftype == "email" ||
          login_user_terms.any (fun t => strContains nm t) ||
          login_user_terms.any (fun t => strContains ph t) then
        (some field, acc.2)
      else acc)
    (none, none)

/-- Embeds the login-button loop of `_identify_login_flow`
(enhanced_analyzer.py 425-430): the first button whose lowered text contains
one of the terms. -/
def find_login_button (buttons : List ARecord) : Option ARecord :=
  buttons.find? (fun b => login_button_terms.any (fun t => strContains (lowerStr b.text) t))

/-- The 3-step login flow dictionary returned by `_identify_login_flow`
(enhanced_analyzer.py 434-459). -/
def login_flow_of (u p b : ARecord) : UserFlow :=
  { name := "User Authentication"
    description := "Log into the application"
    steps :=
      [{ element := u.css_selector, action := "input", value := some "standard_user",
         description := "Enter username",
         cypress := "cy.get('" ++ u.css_selector ++ "').type('standard_user')" },
       { element := p.css_selector, action := "input", value := some "secret_sauce",
         description := "Enter password",
         cypress := "cy.get('" ++ p.css_selector ++ "').type('secret_sauce')" },
       { element := b.css_selector, action := "click", value := none,
         description := "Click login button",
         cypress := "cy.get('" ++ b.css_selector ++ "').click()" }] }

/-- Embeds `EnhancedAnalyzer._identify_login_flow` (enhanced_analyzer.py
393-461). -/
def identify_login_flow (input_fields buttons : List ARecord) : Option UserFlow :=
  match login_scan input_fields, find_login_button buttons with
  | (some u, some p), some b => some (login_flow_of u p b)
  | _, _ => none

/-- Submit-button text terms of `_identify_form_flow`
(enhanced_analyzer.py 486). -/
def submit_text_terms : List String := ["submit", "save", "send", "create", "add"]

/-- The textual submit-button test of `_identify_form_flow`
(enhanced_analyzer.py 483-489): non-empty text containing a submit term, or
`type == "submit"`. -/
def submit_text_pred (b : ARecord) : Bool :=
  (!b.text.isEmpty && submit_text_terms.any (fun t => strContains (lowerStr b.text) t)) ||
  b.attr "type" == some "submit"

/-- Python `max(field y-coordinates)` over a non-empty field list
(enhanced_analyzer.py 493). -/
def maxYList : List ARecord → Int
  | [] => 0
  | f :: fs => fs.foldl (fun m g => max m g.locY) f.locY

/-- The positional candidates of `_identify_form_flow` (line 494): buttons
strictly below the bottommost input field. -/
def submit_candidates (input_fields buttons : List ARecord) : List ARecord :=
  buttons.filter (fun b => maxYList input_fields < b.locY)

/-- Python `min(candidates, key=y)`: the first candidate with minimal
y-coordinate. -/
def minByY (c : ARecord) (cs : List ARecord) : ARecord :=
  cs.foldl (fun best x => if x.locY < best.locY then x else best) c

/-- Embeds the submit-button resolution block of `_identify_form_flow`
(enhanced_analyzer.py 482-500): first textual/type match, else the minimal-y
button below the inputs, else the last button. -/
def resolve_submit_button (input_fields buttons : List ARecord) : Option ARecord :=
  match buttons.find? submit_text_pred with
  | some b => some b
  | none =>
    match submit_candidates input_fields buttons with
    | [] => buttons.getLast?
    | c :: cs => some (minByY c cs)

/-- The type-sensitive sample value of `_identify_form_flow`
(enhanced_analyzer.py 516-525). -/
def form_test_value (field : ARecord) : String :=
  let ph := field.attrD "placeholder" ""
  let nm := field.attrD "name" ""
  let ft := field.attrD "type" ""
  if ft == "email" || strContains (lowerStr nm) "email" then "test@example.com"
  else if strContains (lowerStr nm) "name" || strContains (lowerStr ph) "name" then "Test User"
  else if strContains (lowerStr nm) "phone" || strContains (lowerStr ph) "phone" then
    "555-123-4567"
  else if strContains (lowerStr nm) "zip" || strContains (lowerStr nm) "postal" then "12345"
  else "Test input"

/-- One input-fill step of the form flow (enhanced_analyzer.py 527-533). -/
def form_field_step (field : ARecord) : FlowStep :=
  let tv := form_test_value field
  { element := field.css_selector, action := "input", value := some tv,
    description := "Enter " ++ tv ++ " in " ++
      pyOr (field.attrD "placeholder" "") (pyOr (field.attrD "name" "") "field"),
    cypress := "cy.get('" ++ field.css_selector ++ "').type('" ++ tv ++ "')" }

/-- The submit click step of the form flow (enhanced_analyzer.py 536-541). -/
def form_submit_step (b : ARecord) : FlowStep :=
  { element := b.css_selector, action := "click", value := none,
    description := "Click " ++ b.text,
    cypress := "cy.get('" ++ b.css_selector ++ "').click()" }

/-- Embeds `EnhancedAnalyzer._identify_form_flow` (enhanced_analyzer.py
463-545): bail out on an empty field or button list or on at most two input
fields, resolve the submit button, then emit up to five input-fill steps
followed by the submit click. -/
def identify_form_flow (input_fields buttons : List ARecord) : Option UserFlow :=
  if input_fields.isEmpty || buttons.isEmpty then none
  else if input_fields.length ≤ 2 then none
  else
    match resolve_submit_button input_fields buttons with
    | none => none
    | some sb => some
      { name := "Form Submission"
        description := "Fill out and submit a form"
        steps := (input_fields.take 5).map form_field_step ++ [form_submit_step sb] }

/-- The `input_fields` grouping of `generate_user_flows` (enhanced_analyzer.py
353): note that `dropdown`-typed elements are not included. -/
def flow_input_fields (elements : List ARecord) : List ARecord :=
  elements.filter (fun e => e.element_type == "input_field" || e.element_type == "text_area")

/-- The `buttons` grouping of `generate_user_flows` (enhanced_analyzer.py 354). -/
def flow_buttons (elements : List ARecord) : List ARecord :=
  elements.filter (fun e => e.element_type == "button" || e.element_type == "submit")

/-- The `links` grouping of `generate_user_flows` (enhanced_analyzer.py 355). -/
def flow_links (elements : List ARecord) : List ARecord :=
  elements.filter (fun e => e.element_type == "link")

/-- One navigation click step (enhanced_analyzer.py 380-387). -/
def nav_step (link : ARecord) : FlowStep :=
  let t := pyOr link.text "link"
  { element := link.css_selector, action := "click", value := none,
    description := "Click " ++ t,
    cypress := "cy.get('" ++ link.css_selector ++ "').click()" }

/-- Embeds `EnhancedAnalyzer.generate_user_flows` (enhanced_analyzer.py
339-391): group elements by type, then append the login, form and navigation
flows of whichever detectors fire, in that fixed order.  `sorted` is
Python's stable sort, modelled by `List.mergeSort` on y-coordinates. -/
def generate_user_flows (elements : List ARecord) : List UserFlow :=
  if elements.isEmpty then []
  else
    (identify_login_flow (flow_input_fields elements) (flow_buttons elements)).toList ++
    (identify_form_flow (flow_input_fields elements) (flow_buttons elements)).toList ++
    (if (flow_links elements).isEmpty then []
     else
       [{ name := "Navigation", description := "Navigate through site links",
          steps := (((flow_links elements).mergeSort (fun a b => a.locY ≤ b.locY)).take 5).map
            nav_step }])

/-- A concrete element record used in examples and witnesses. -/
def mkRec (etype text : String) (attrs : List (String × String)) (sel : String) (y : Int) :
    ARecord :=
  { tag_name := "input", text := text, is_displayed := true, is_enabled := true,
    locX := 0, locY := y, attrs := attrs, element_type := etype,
    css_selector := sel, actions := [] }

/-- Username input of the login example. -/
def demoUser : ARecord := mkRec "input_field" "" [("type", "text"), ("id", "user")] "#user" 10

/-- Password input of the login example. -/
def demoPass : ARecord := mkRec "input_field" "" [("type", "password"), ("id", "pw")] "#pw" 20

/-- Login button of the login example. -/
def demoLogin : ARecord := mkRec "button" "Log In" [] "button:contains('Log In')" 30

example : identify_login_flow [demoUser, demoPass] [demoLogin] =
    some (login_flow_of demoUser demoPass demoLogin) := by decide
example : identify_login_flow [demoUser] [demoLogin] = none := by decide
example : identify_login_flow [demoPass] [demoLogin] = none := by decide
example : identify_login_flow [demoUser, demoPass] [] = none := by decide
example : (generate_user_flows [demoUser, demoPass, demoLogin]).map (fun f => f.name) =
    ["User Authentication"] := by decide

/-! ## Error propagation (`start_crawl` 109-186, `analyze_and_generate` 608-665) -/

/-- Outcome of one `start_crawl` call: the value returned or the exception
propagated, plus whether a rendering session was acquired and whether it was
released by the `finally` block. -/
structure CrawlCallResult where
  outcome : Except String (List String)
  sessionAcquired : Bool
  sessionReleased : Bool
deriving Repr

/-- Embeds the error structure of `SeleniumCrawler.start_crawl`
(selenium_crawler.py 109-186).  `setupOk` models whether `setup_driver` can
establish a rendering session at all; when it cannot, the exception escapes
the `try` block (nothing catches it) after the `finally` block runs, which
only quits a driver that was created.  Every page-level failure is caught
inside the loop, so a run with a session never raises. -/
def start_crawl_call (setupOk : Bool) (web : Web) (maxPages maxDepth : Nat)
    (startUrl : String) : CrawlCallResult :=
  if setupOk then
    { outcome := .ok (start_crawl web maxPages maxDepth startUrl).elements
      sessionAcquired := true
      sessionReleased := true }
  else
    { outcome := .error "could not establish a rendering session"
      sessionAcquired := false
      sessionReleased := false }

/-- The result dictionary of `EnhancedAnalyzer.analyze_and_generate`
(enhanced_analyzer.py 636-646 and 652-660): the fields the claims read. -/
structure AnalysisResult where
  errorMsg : Option String
  pageUrl : String
  pageTitle : String
  elements : List ARecord
  userFlows : List UserFlow
deriving Repr, DecidableEq

/-- The page `analyze_and_generate` would analyze when a session exists. -/
structure PageModel where
  title : String
  recs : List ARecord
deriving Repr, DecidableEq

/-- Embeds `EnhancedAnalyzer.analyze_and_generate` (enhanced_analyzer.py
608-665).  The `except Exception` clause catches every failure of the `try`
block — including the session-establishment exception raised by
`setup_driver` — and converts it to an error-marked result dictionary, so
the call always returns normally (`Except.ok`); the second component records
whether the `finally` block had a driver to quit. -/
def analyze_and_generate (setupOk : Bool) (url : String) (page : PageModel) :
    Except String AnalysisResult × Bool :=
  if setupOk then
    (.ok { errorMsg := none, pageUrl := url, pageTitle := page.title,
           elements := page.recs, userFlows := generate_user_flows page.recs }, true)
  else
    (.ok { errorMsg := some "Could not initialize any web driver",
           pageUrl := url, pageTitle := "Error", elements := [], userFlows := [] }, false)

/-! ## Shared helper lemmas -/

/-- A non-empty string has `isEmpty = false`. -/
theorem strNeEmptyIsEmpty (s : String) (h : s ≠ "") : s.isEmpty = false := by
  rw [Bool.eq_false_iff]
  intro hh
  exact h ((String.isEmpty_iff s).mp hh)

/-- An append whose left part is non-empty is non-empty. -/
theorem append_ne_empty_left (a b : String) (h : a ≠ "") : a ++ b ≠ "" := by
  intro hab
  apply h
  have hd := congrArg String.data hab
  rw [String.data_append] at hd
  have h1 : a.data = [] := (List.append_eq_nil.mp hd).1
  cases a
  simp_all

/-! ## C7: `should_crawl_url` -/

/-- Modelled from the spec: the denylist filter as claim C7 states it — the
URL's *path* ends with one of the denylisted extensions.  Stated only to be
compared with the source's filter, which tests the whole URL string. -/
def spec_denylist_rejects (url : String) : Bool :=
  excluded_extensions.any (fun ext => strEndsWith (lowerStr (url_path url)) ext)

/-- C7 (counterexample): for `http://ex.com/page?x=.pdf` none of the four
filters as the claim states them rejects — the URL is unvisited, its host
contains the domain, the scheme is http, and its path `/page` does not end
with a denylisted extension — yet `should_crawl_url` returns false, because
the code tests the whole URL string (which ends in `.pdf`) rather than the
path. -/
theorem c7_counterexample :
    should_crawl_url [] "ex.com" "http://ex.com/page?x=.pdf" = false ∧
    ¬ ("http://ex.com/page?x=.pdf" ∈ ([] : List String)) ∧
    strContains (extract_domain "http://ex.com/page?x=.pdf") "ex.com" = true ∧
    strStartsWith "http://ex.com/page?x=.pdf" "http://" = true ∧
    spec_denylist_rejects "http://ex.com/page?x=.pdf" = false := by decide

/-- C7 (amended): `should_crawl_url` is false exactly when the URL is already
visited, or its host does not contain the target domain as a substring, or
its scheme is neither http nor https, or the *whole lowercased URL string*
ends with a denylisted extension; and a visited URL always yields false. -/
theorem c7_amended (visited : List String) (domain url : String) :
    (should_crawl_url visited domain url = false ↔
      url ∈ visited ∨
      strContains (extract_domain url) domain = false ∨
      (strStartsWith url "http://" = false ∧ strStartsWith url "https://" = false) ∨
      ∃ ext ∈ excluded_extensions, strEndsWith (lowerStr url) ext = true) ∧
    (url ∈ visited → should_crawl_url visited domain url = false) := by
  have hmem : visited.contains url = true ↔ url ∈ visited := List.elem_iff
  constructor
  · unfold should_crawl_url
    split_ifs with h1 h2 h3 h4
    · exact iff_of_true rfl (Or.inl (hmem.mp h1))
    · refine iff_of_true rfl (Or.inr (Or.inl ?_))
      rwa [Bool.not_eq_true'] at h2
    · refine iff_of_true rfl (Or.inr (Or.inr (Or.inl ?_)))
      rw [Bool.not_eq_true', Bool.or_eq_false_iff] at h3
      exact h3
    · refine iff_of_true rfl (Or.inr (Or.inr (Or.inr ?_)))
      simpa using h4
    · refine iff_of_false (by simp) ?_
      rintro (hv | hdom | ⟨hs1, hs2⟩ | hext)
      · exact h1 (hmem.mpr hv)
      · rw [Bool.not_eq_true'] at h2
        exact h2 hdom
      · rw [Bool.not_eq_true'] at h3
        exact h3 (by rw [hs1, hs2]; rfl)
      · exact h4 (by simpa using hext)
  · intro h
    unfold should_crawl_url
    rw [if_pos (hmem.mpr h)]

/-- C7 (witness): the amended theorem applied at a concrete visited URL. -/
theorem c7_witness :
    should_crawl_url ["http://ex.com/a"] "ex.com" "http://ex.com/a" = false :=
  (c7_amended ["http://ex.com/a"] "ex.com" "http://ex.com/a").2 (by decide)

/-! ## C3: the locator generator -/

/-- C3: `_generate_css_selector` returns a non-empty string for every element
with a (necessarily non-empty) tag name, and an element carrying an `id`
attribute with a non-empty value always yields the `#<id>` selector,
whatever its `class` attribute is. -/
theorem c3_locator_priority (e : WebElem) :
    (e.tag_name ≠ "" → generate_css_selector e ≠ "") ∧
    (∀ i, e.getAttr "id" = some i → i ≠ "" → generate_css_selector e = "#" ++ i) := by
  constructor
  · intro htag
    unfold generate_css_selector
    split_ifs with h1 h2 h3 h4 h5 h6 h7
    · exact append_ne_empty_left _ _ (by decide)
    · exact append_ne_empty_left _ _ (append_ne_empty_left _ _ (by decide))
    · exact append_ne_empty_left _ _ (append_ne_empty_left _ _ (by decide))
    · exact append_ne_empty_left _ _ (append_ne_empty_left _ _ (append_ne_empty_left _ _ htag))
    · exact append_ne_empty_left _ _ (append_ne_empty_left _ _ (append_ne_empty_left _ _ htag))
    · exact append_ne_empty_left _ _ (append_ne_empty_left _ _ htag)
    · exact append_ne_empty_left _ _ (append_ne_empty_left _ _ (append_ne_empty_left _ _ htag))
    · exact htag
  · intro i hid hi
    have h1 : attrTruthy (e.getAttr "id") = true := by
      rw [hid]
      simp [attrTruthy, strNeEmptyIsEmpty i hi]
    unfold generate_css_selector
    rw [if_pos h1, hid]
    rfl

/-- C3 (witness): an element with both `id` and `class` yields `#x`, and a
bare tag yields the non-empty fallback. -/
theorem c3_witness :
    generate_css_selector (mkElem "div" "" [("id", "x"), ("class", "c d")]) = "#" ++ "x" ∧
    generate_css_selector (mkElem "span" "" []) ≠ "" :=
  ⟨(c3_locator_priority (mkElem "div" "" [("id", "x"), ("class", "c d")])).2 "x"
      (by decide) (by decide),
   (c3_locator_priority (mkElem "span" "" [])).1 (by decide)⟩

/-! ## C10: anchors always report `is_enabled = true` -/

/-- C10: both extractors hard-code `is_enabled = True` for anchor tags and
never consult the element's real enabled state: every record extracted from
a tag-`a` element has `is_enabled = true`, and flipping the underlying
enabled state does not change either extractor's output. -/
theorem c10_anchor_enabled (skipHidden : Bool) (pageUrl pageTitle : String) (e : WebElem)
    (ha : e.tag_name = "a") :
    (∀ r, parser_extract skipHidden pageUrl pageTitle e = some r → r.is_enabled = true) ∧
    (∀ r, enhanced_extract e = some r → r.is_enabled = true) ∧
    (∀ b, parser_extract skipHidden pageUrl pageTitle { e with enabledRaw := b } =
        parser_extract skipHidden pageUrl pageTitle e) ∧
    (∀ b, enhanced_extract { e with enabledRaw := b } = enhanced_extract e) := by
  obtain ⟨tg, tx, ats, pt, dp, en, lx, ly, w, h⟩ := e
  simp only [WebElem.tag_name] at ha
  subst ha
  refine ⟨?_, ?_, fun b => rfl, fun b => rfl⟩
  · intro r hr
    unfold parser_extract at hr
    by_cases hcond : (skipHidden && !dp) = true
    · rw [if_pos hcond] at hr
      exact Option.noConfusion hr
    · rw [if_neg hcond] at hr
      injection hr with h2
      rw [← h2]
      rfl
  · intro r hr
    unfold enhanced_extract at hr
    by_cases hcond : (!dp) = true
    · rw [if_pos hcond] at hr
      exact Option.noConfusion hr
    · rw [if_neg hcond] at hr
      injection hr with h2
      rw [← h2]
      rfl

/-- A displayed anchor whose underlying enabled state is false. -/
def demoAnchor : WebElem :=
  { mkElem "a" "Home" [("href", "http://ex.com/")] with enabledRaw := false }

/-- C10 (witness): the disabled anchor is reported enabled by both
extractors. -/
theorem c10_witness :
    (enhanced_extract demoAnchor).map (fun r => r.is_enabled) = some true ∧
    (parser_extract true "http://ex.com/" "T" demoAnchor).map (fun r => r.is_enabled) =
      some true ∧
    demoAnchor.enabledRaw = false := by
  have h := c10_anchor_enabled true "http://ex.com/" "T" demoAnchor rfl
  refine ⟨?_, ?_, rfl⟩
  · cases he : enhanced_extract demoAnchor with
    | none => exact absurd he (by decide)
    | some r => simp [h.2.1 r he]
  · cases hp : parser_extract true "http://ex.com/" "T" demoAnchor with
    | none => exact absurd hp (by decide)
    | some r => simp [h.1 r hp]

/-! ## C2: the element classifiers -/

/-- The `input` categories are always documented: a verbatim input type,
`input_field`, or an `input_`-prefixed type. -/
theorem input_cat_documented (t : Option String) :
    is_documented_category (categorize_input t) = true := by
  unfold categorize_input
  split_ifs with h1 h2
  · unfold optMem at h1
    cases t with
    | none => exact absurd h1 (by decide)
    | some s =>
      have hs : s ∈ ["checkbox", "radio", "submit", "button"] := List.elem_iff.mp h1
      have hd : s ∈ documented_categories := by fin_cases hs <;> decide
      unfold is_documented_category
      rw [Bool.or_eq_true]
      exact Or.inl (List.elem_iff.mpr hd)
  · decide
  · unfold is_documented_category
    rw [Bool.or_eq_true]
    right
    rw [String.data_append, List.isPrefixOf_iff_prefix]
    exact List.prefix_append _ _

set_option maxHeartbeats 1600000 in
/-- C2 (amended): the `ElementParser` classifier is total over the documented
category strings, and in both classifiers a `role` attribute whose value is
in that classifier's recognized role set is returned verbatim, overriding
every tag- and class-based rule (so `<div role="button">` is `button`, never
`pseudo_button`).  The `EnhancedAnalyzer` classifier recognizes only the
six-role subset and is not total over the documented set (see the
counterexample). -/
theorem c2_amended (e : WebElem) :
    is_documented_category (parser_categorize e) = true ∧
    (∀ r, e.getAttr "role" = some r → r ∈ parser_role_set → parser_categorize e = r) ∧
    (∀ r, e.getAttr "role" = some r → r ∈ enhanced_role_set → enhanced_categorize e = r) := by
  refine ⟨?_, ?_, ?_⟩
  · simp only [parser_categorize]
    split_ifs with h1 h2 h3 h4 h5 h6 h7 h8 h9 h10
    all_goals try decide
    · rw [Bool.and_eq_true] at h1
      have hmem : ((e.getAttr "role").getD "") ∈ documented_categories := by
        unfold documented_categories
        rw [List.mem_append]
        exact Or.inl (List.elem_iff.mp h1.2)
      unfold is_documented_category
      rw [Bool.or_eq_true]
      exact Or.inl (List.elem_iff.mpr hmem)
    · exact input_cat_documented _
  · intro r hrole hmem
    have hne : r ≠ "" := by fin_cases hmem <;> decide
    have hc : (attrTruthy (some r) && parser_role_set.contains ((some r).getD "")) = true := by
      rw [Bool.and_eq_true]
      refine ⟨by simp [attrTruthy, strNeEmptyIsEmpty r hne], ?_⟩
      rw [Option.getD_some]
      exact List.elem_iff.mpr hmem
    simp only [parser_categorize]
    rw [hrole, if_pos hc]
    rfl
  · intro r hrole hmem
    have hne : r ≠ "" := by fin_cases hmem <;> decide
    have hc : (attrTruthy (some r) && enhanced_role_set.contains ((some r).getD "")) = true := by
      rw [Bool.and_eq_true]
      refine ⟨by simp [attrTruthy, strNeEmptyIsEmpty r hne], ?_⟩
      rw [Option.getD_some]
      exact List.elem_iff.mpr hmem
    simp only [enhanced_categorize]
    rw [hrole, if_pos hc]
    rfl

/-- C2 (counterexample): the `EnhancedAnalyzer` classifier maps
`<div class="dropdown">` to `pseudo_dropdown`, which is not one of the
documented category strings, so `classify` as claimed — covering both
implementations — is not total over the documented set. -/
theorem c2_counterexample :
    enhanced_categorize (mkElem "div" "" [("class", "dropdown")]) = "pseudo_dropdown" ∧
    is_documented_category "pseudo_dropdown" = false := by decide

/-- C2 (witness): the amended theorem applied to `<div role="button"
class="btn">` for both classifiers, and to an unusual input type. -/
theorem c2_witness :
    parser_categorize (mkElem "div" "" [("role", "button"), ("class", "btn")]) = "button" ∧
    enhanced_categorize (mkElem "div" "" [("role", "button"), ("class", "btn")]) = "button" ∧
    is_documented_category
      (parser_categorize (mkElem "input" "" [("type", "hidden")])) = true :=
  ⟨(c2_amended (mkElem "div" "" [("role", "button"), ("class", "btn")])).2.1 "button"
      (by decide) (by decide),
   (c2_amended (mkElem "div" "" [("role", "button"), ("class", "btn")])).2.2 "button"
      (by decide) (by decide),
   (c2_amended (mkElem "input" "" [("type", "hidden")])).1⟩

/-! ## C4: the login-flow detector -/

/-- C4: `_identify_login_flow` emits the exact 3-step flow — username with
sample value `standard_user`, then password with `secret_sauce`, then the
login-button click — when its scan finds a username field, a password field
and a login button, and emits nothing at all when any of the three roles is
not found. -/
theorem c4_login_flow (input_fields buttons : List ARecord) :
    (∀ u p b, login_scan input_fields = (some u, some p) →
      find_login_button buttons = some b →
      identify_login_flow input_fields buttons = some (login_flow_of u p b) ∧
      (login_flow_of u p b).steps.map (fun s => (s.element, s.action, s.value)) =
        [(u.css_selector, "input", some "standard_user"),
         (p.css_selector, "input", some "secret_sauce"),
         (b.css_selector, "click", (none : Option String))]) ∧
    ((login_scan input_fields).1 = none ∨ (login_scan input_fields).2 = none ∨
      find_login_button buttons = none →
      identify_login_flow input_fields buttons = none) := by
  constructor
  · intro u p b hscan hbtn
    refine ⟨?_, rfl⟩
    unfold identify_login_flow
    rw [hscan, hbtn]
  · intro h
    cases hs : login_scan input_fields with
    | mk s1 s2 =>
      rw [hs] at h
      unfold identify_login_flow
      rw [hs]
      cases hb : find_login_button buttons with
      | none => cases s1 <;> cases s2 <;> rfl
      | some b =>
        rw [hb] at h
        rcases h with h | h | h
        · have h1 : s1 = none := h
          subst h1
          cases s2 <;> rfl
        · have h2 : s2 = none := h
          subst h2
          cases s1 <;> rfl
        · exact Option.noConfusion h

/-- C4 (witness): the theorem applied to the concrete login example and to
each input set with one of the three roles removed. -/
theorem c4_witness :
    identify_login_flow [demoUser, demoPass] [demoLogin] =
      some (login_flow_of demoUser demoPass demoLogin) ∧
    identify_login_flow [demoUser] [demoLogin] = none ∧
    identify_login_flow [demoPass] [demoLogin] = none ∧
    identify_login_flow [demoUser, demoPass] [] = none :=
  ⟨((c4_login_flow [demoUser, demoPass] [demoLogin]).1 demoUser demoPass demoLogin
      (by decide) (by decide)).1,
   (c4_login_flow [demoUser] [demoLogin]).2 (Or.inr (Or.inl (by decide))),
   (c4_login_flow [demoPass] [demoLogin]).2 (Or.inl (by decide)),
   (c4_login_flow [demoUser, demoPass] []).2 (Or.inr (Or.inr (by decide)))⟩

/-! ## C5: the form-flow input threshold -/

/-- Every flow the login detector emits is named `User Authentication`. -/
theorem login_flow_name_eq (a b : List ARecord) (f : UserFlow)
    (h : identify_login_flow a b = some f) : f.name = "User Authentication" := by
  unfold identify_login_flow at h
  cases hs : login_scan a with
  | mk s1 s2 =>
    rw [hs] at h
    cases hb : find_login_button b with
    | none =>
      rw [hb] at h
      cases s1 <;> cases s2 <;> exact Option.noConfusion h
    | some bb =>
      rw [hb] at h
      cases s1 with
      | none => exact Option.noConfusion h
      | some u =>
        cases s2 with
        | none => exact Option.noConfusion h
        | some p =>
          injection h with h2
          rw [← h2]
          rfl

/-- Every flow the form detector emits is named `Form Submission`. -/
theorem form_flow_name_eq (a b : List ARecord) (f : UserFlow)
    (h : identify_form_flow a b = some f) : f.name = "Form Submission" := by
  unfold identify_form_flow at h
  split_ifs at h
  cases hr : resolve_submit_button a b with
  | none => rw [hr] at h; exact Option.noConfusion h
  | some sb =>
    rw [hr] at h
    injection h with h2
    rw [← h2]

/-- With a non-empty button list the submit-button resolution always
succeeds: a textual match, a positional candidate, or the last button. -/
theorem resolve_submit_isSome (fields buttons : List ARecord) (hb : buttons ≠ []) :
    (resolve_submit_button fields buttons).isSome = true := by
  unfold resolve_submit_button
  cases hf : buttons.find? submit_text_pred with
  | some b => rfl
  | none =>
    cases hc : submit_candidates fields buttons with
    | nil => exact List.getLast?_isSome.mpr hb
    | cons c cs => rfl

set_option maxHeartbeats 800000 in
/-- C5 (amended): the form-flow threshold counts only `input_field` and
`text_area` typed elements — `dropdown` elements do not count.  With at most
two such elements `generate_user_flows` emits no `Form Submission` flow;
with three or more of them and at least one button it always emits one. -/
theorem c5_amended (elements : List ARecord) :
    ((flow_input_fields elements).length ≤ 2 →
      ∀ f ∈ generate_user_flows elements, f.name ≠ "Form Submission") ∧
    (2 < (flow_input_fields elements).length → flow_buttons elements ≠ [] →
      ∃ f ∈ generate_user_flows elements, f.name = "Form Submission") := by
  constructor
  · intro hlen f hf
    have hform :
        identify_form_flow (flow_input_fields elements) (flow_buttons elements) = none := by
      unfold identify_form_flow
      split_ifs with h1
      · rfl
      · rfl
    unfold generate_user_flows at hf
    rw [hform] at hf
    split_ifs at hf with he hlinks
    · exact absurd hf (List.not_mem_nil f)
    · rw [List.mem_append] at hf
      rcases hf with hf | hf
      · rw [List.mem_append] at hf
        rcases hf with hf | hf
        · have hl := Option.mem_def.mp (Option.mem_toList.mp hf)
          rw [login_flow_name_eq _ _ f hl]
          decide
        · exact absurd hf (List.not_mem_nil f)
      · exact absurd hf (List.not_mem_nil f)
    · rw [List.mem_append] at hf
      rcases hf with hf | hf
      · rw [List.mem_append] at hf
        rcases hf with hf | hf
        · have hl := Option.mem_def.mp (Option.mem_toList.mp hf)
          rw [login_flow_name_eq _ _ f hl]
          decide
        · exact absurd hf (List.not_mem_nil f)
      · rw [List.mem_singleton] at hf
        rw [hf]
        show ("Navigation" : String) ≠ "Form Submission"
        decide
  · intro hlen hb
    have he : elements.isEmpty = false := by
      cases elements with
      | nil => exact absurd hlen (by decide)
      | cons x xs => rfl
    obtain ⟨sb, hsb⟩ := Option.isSome_iff_exists.mp
      (resolve_submit_isSome (flow_input_fields elements) (flow_buttons elements) hb)
    have hfi : (flow_input_fields elements).isEmpty = false := by
      cases hfe : flow_input_fields elements with
      | nil => rw [hfe] at hlen; exact absurd hlen (by decide)
      | cons x xs => rfl
    have hbt : (flow_buttons elements).isEmpty = false := by
      cases hbe : flow_buttons elements with
      | nil => exact absurd hbe hb
      | cons x xs => rfl
    have hform :
        identify_form_flow (flow_input_fields elements) (flow_buttons elements) =
          some { name := "Form Submission"
                 description := "Fill out and submit a form"
                 steps := ((flow_input_fields elements).take 5).map form_field_step ++
                   [form_submit_step sb] } := by
      unfold identify_form_flow
      rw [hfi, hbt]
      rw [if_neg (by simp)]
      rw [if_neg (by omega)]
      rw [hsb]
    refine ⟨{ name := "Form Submission"
              description := "Fill out and submit a form"
              steps := ((flow_input_fields elements).take 5).map form_field_step ++
                [form_submit_step sb] }, ?_, rfl⟩
    unfold generate_user_flows
    rw [if_neg (by simp [he])]
    rw [List.mem_append]
    left
    rw [List.mem_append]
    right
    rw [hform]
    exact List.mem_singleton.mpr rfl

/-- Modelled from the spec: C5's notion of an input-like element
(`input_field`, `text_area` or `dropdown`), stated only to be compared with
the grouping the code actually uses. -/
def spec_input_like (e : ARecord) : Bool :=
  e.element_type == "input_field" || e.element_type == "text_area" ||
  e.element_type == "dropdown"

/-- Elements with three spec-input-like members — one input field and two
dropdowns — plus a submit-labelled button. -/
def c5_elems : List ARecord :=
  [mkRec "input_field" "" [("type", "text")] "#f1" 10,
   mkRec "dropdown" "" [] "#d1" 20,
   mkRec "dropdown" "" [] "#d2" 30,
   mkRec "button" "Save" [] "#b1" 40]

/-- C5 (counterexample): an element set with exactly three input-like
elements in the claim's sense (one `input_field`, two `dropdown`) and a
submit-labelled button yields no form flow, because the code's threshold
counts only `input_field`/`text_area` elements and sees just one. -/
theorem c5_counterexample :
    (c5_elems.filter spec_input_like).length = 3 ∧
    (generate_user_flows c5_elems).all (fun f => f.name != "Form Submission") = true ∧
    identify_form_flow (flow_input_fields c5_elems) (flow_buttons c5_elems) = none := by
  decide

/-- Three input fields and one non-descript button. -/
def c5_formElems : List ARecord :=
  [mkRec "input_field" "" [("type", "text"), ("name", "first")] "#a1" 10,
   mkRec "input_field" "" [("type", "text"), ("name", "last")] "#a2" 20,
   mkRec "text_area" "" [] "#a3" 30,
   mkRec "button" "Go" [] "#b2" 90]

/-- C5 (witness): the amended theorem applied at the three-field example and
at a two-field boundary example. -/
theorem c5_witness :
    (∃ f ∈ generate_user_flows c5_formElems, f.name = "Form Submission") ∧
    ¬ ∃ f ∈ generate_user_flows c5_elems, f.name = "Form Submission" := by
  constructor
  · exact (c5_amended c5_formElems).2 (by decide) (by decide)
  · rintro ⟨f, hf, hname⟩
    exact (c5_amended c5_elems).1 (by decide) f hf hname

/-! ## C6: submit-button resolution order -/

/-- Python `min(candidates, key=y)` returns a member of the list whose
y-coordinate is minimal. -/
theorem minByY_spec (cs : List ARecord) : ∀ c : ARecord,
    minByY c cs ∈ c :: cs ∧ (minByY c cs).locY ≤ c.locY ∧
    ∀ x ∈ cs, (minByY c cs).locY ≤ x.locY := by
  induction cs with
  | nil =>
    intro c
    exact ⟨List.mem_singleton.mpr rfl, le_refl _,
      fun x hx => absurd hx (List.not_mem_nil x)⟩
  | cons d ds ih =>
    intro c
    have hstep : minByY c (d :: ds) = minByY (if d.locY < c.locY then d else c) ds := rfl
    obtain ⟨hmem, hle, hall⟩ := ih (if d.locY < c.locY then d else c)
    rw [hstep]
    refine ⟨?_, ?_, ?_⟩
    · rcases List.mem_cons.mp hmem with h | h
      · rw [h]
        split_ifs
        · exact List.mem_cons_of_mem _ (List.mem_cons_self _ _)
        · exact List.mem_cons_self _ _
      · exact List.mem_cons_of_mem _ (List.mem_cons_of_mem _ h)
    · split_ifs at hle ⊢ with hd
      · exact le_trans hle (le_of_lt hd)
      · exact hle
    · intro x hx
      rcases List.mem_cons.mp hx with h | h
      · rw [h]
        split_ifs at hle ⊢ with hd
        · exact hle
        · exact le_trans hle (not_lt.mp hd)
      · exact hall x h

/-- C6 (amended): with a non-empty button list the form detector resolves a
submit button `sb` such that either (a) `sb` is the first button matching
the textual/type rule, or (b) no button matches textually and `sb` is a
button strictly below the bottommost input field with *minimal* y-coordinate
among those (the closest one below, not the lowest-positioned one), or
(c) no button matches textually, no button lies below the inputs, and `sb`
is the last button; and when the detector fires, its final step clicks
exactly this `sb`. -/
theorem c6_amended (fields buttons : List ARecord) (hb : buttons ≠ []) :
    ∃ sb, resolve_submit_button fields buttons = some sb ∧
      ((buttons.find? submit_text_pred = some sb) ∨
       (buttons.find? submit_text_pred = none ∧
         sb ∈ submit_candidates fields buttons ∧
         ∀ c ∈ submit_candidates fields buttons, sb.locY ≤ c.locY) ∨
       (buttons.find? submit_text_pred = none ∧ submit_candidates fields buttons = [] ∧
         buttons.getLast? = some sb)) ∧
      (2 < fields.length → fields ≠ [] →
        ∃ fl, identify_form_flow fields buttons = some fl ∧
          fl.steps.getLast? = some (form_submit_step sb)) := by
  have hres : ∃ sb, resolve_submit_button fields buttons = some sb ∧
      ((buttons.find? submit_text_pred = some sb) ∨
       (buttons.find? submit_text_pred = none ∧
         sb ∈ submit_candidates fields buttons ∧
         ∀ c ∈ submit_candidates fields buttons, sb.locY ≤ c.locY) ∨
       (buttons.find? submit_text_pred = none ∧ submit_candidates fields buttons = [] ∧
         buttons.getLast? = some sb)) := by
    unfold resolve_submit_button
    cases hf : buttons.find? submit_text_pred with
    | some b => exact ⟨b, rfl, Or.inl rfl⟩
    | none =>
      cases hc : submit_candidates fields buttons with
      | nil =>
        obtain ⟨x, hx⟩ := Option.isSome_iff_exists.mp (List.getLast?_isSome.mpr hb)
        exact ⟨x, by rw [hx], Or.inr (Or.inr ⟨rfl, rfl, hx⟩)⟩
      | cons c cs =>
        obtain ⟨hmem, hle, hall⟩ := minByY_spec cs c
        refine ⟨minByY c cs, rfl, Or.inr (Or.inl ⟨rfl, hmem, ?_⟩)⟩
        intro x hx
        rcases List.mem_cons.mp hx with h | h
        · rw [h]
          exact hle
        · exact hall x h
  obtain ⟨sb, hsb, hdisj⟩ := hres
  refine ⟨sb, hsb, hdisj, ?_⟩
  intro hlen hne
  have hfi : fields.isEmpty = false := by
    cases fields with
    | nil => exact absurd rfl hne
    | cons x xs => rfl
  have hbt : buttons.isEmpty = false := by
    cases buttons with
    | nil => exact absurd rfl hb
    | cons x xs => rfl
  unfold identify_form_flow
  rw [hfi, hbt, if_neg (by simp), if_neg (by omega), hsb]
  exact ⟨_, rfl, List.getLast?_concat _⟩

/-- Three stacked input fields (bottommost at y = 30). -/
def c6_fields : List ARecord :=
  [mkRec "input_field" "" [] "#i1" 10,
   mkRec "input_field" "" [] "#i2" 20,
   mkRec "input_field" "" [] "#i3" 30]

/-- Two buttons below the inputs, neither matching the textual rule; `#bA`
is closer to the inputs, `#bB` is the lowest-positioned one. -/
def c6_buttons : List ARecord :=
  [mkRec "button" "Continue" [] "#bA" 100,
   mkRec "button" "Next" [] "#bB" 200]

/-- Modelled from the spec: rule (b) of claim C6 as worded — the
*lowest-positioned* (maximal-y) button below the bottommost input field.
Stated only to be compared with the code's minimal-y choice. -/
def spec_lowest_candidate (input_fields buttons : List ARecord) : Option ARecord :=
  match submit_candidates input_fields buttons with
  | [] => none
  | c :: cs => some (cs.foldl (fun best x => if best.locY < x.locY then x else best) c)

/-- C6 (counterexample): with no textual match and two buttons below the
inputs, the code resolves the *minimal-y* button `#bA` (and the emitted
form flow clicks it), while the claim's lowest-positioned rule picks
`#bB`. -/
theorem c6_counterexample :
    resolve_submit_button c6_fields c6_buttons = some (mkRec "button" "Continue" [] "#bA" 100) ∧
    spec_lowest_candidate c6_fields c6_buttons = some (mkRec "button" "Next" [] "#bB" 200) ∧
    (identify_form_flow c6_fields c6_buttons).map
      (fun fl => fl.steps.getLast?.map (fun s => s.element)) = some (some "#bA") ∧
    "#bA" ≠ "#bB" := by decide

/-- C6 (witness): the amended theorem applied at the concrete example. -/
theorem c6_witness :
    ∃ sb, resolve_submit_button c6_fields c6_buttons = some sb ∧
      ((c6_buttons.find? submit_text_pred = some sb) ∨
       (c6_buttons.find? submit_text_pred = none ∧
         sb ∈ submit_candidates c6_fields c6_buttons ∧
         ∀ c ∈ submit_candidates c6_fields c6_buttons, sb.locY ≤ c.locY) ∨
       (c6_buttons.find? submit_text_pred = none ∧
         submit_candidates c6_fields c6_buttons = [] ∧
         c6_buttons.getLast? = some sb)) ∧
      (2 < c6_fields.length → c6_fields ≠ [] →
        ∃ fl, identify_form_flow c6_fields c6_buttons = some fl ∧
          fl.steps.getLast? = some (form_submit_step sb)) :=
  c6_amended c6_fields c6_buttons (by decide)

/-! ## C1 and C8: crawl budget and depth bounds -/

/-- Processing one URL increases the page counter by at most one. -/
theorem processUrl_pages_le (web : Web) (dom : String) (d : Nat)
    (acc : CrawlState × List String) (url : String) :
    (processUrl web dom d acc url).1.pagesVisited ≤ acc.1.pagesVisited + 1 := by
  simp only [processUrl]
  split_ifs
  · exact Nat.le_succ _
  · cases List.lookup url web with
    | none => exact Nat.le_succ _
    | some page => exact le_refl _

/-- Processing one URL never touches the level log. -/
theorem processUrl_levelLog (web : Web) (dom : String) (d : Nat)
    (acc : CrawlState × List String) (url : String) :
    (processUrl web dom d acc url).1.levelLog = acc.1.levelLog := by
  simp only [processUrl]
  split_ifs
  · rfl
  · cases List.lookup url web with
    | none => rfl
    | some page => rfl

/-- Processing one URL adds only visits at the current depth. -/
theorem processUrl_visited_depth (web : Web) (dom : String) (d : Nat)
    (acc : CrawlState × List String) (url : String) :
    ∀ p ∈ (processUrl web dom d acc url).1.visited, p ∈ acc.1.visited ∨ p.2 = d := by
  simp only [processUrl]
  split_ifs
  · exact fun p hp => Or.inl hp
  · cases List.lookup url web with
    | none => exact fun p hp => Or.inl hp
    | some page =>
      intro p hp
      rcases List.mem_append.mp hp with h | h
      · exact Or.inl h
      · rw [List.mem_singleton] at h
        rw [h]
        exact Or.inr rfl

/-- One depth level increases the page counter by at most the level size. -/
theorem processLevel_pages_le (web : Web) (dom : String) (d : Nat) :
    ∀ (urls : List String) (acc : CrawlState × List String),
    (urls.foldl (processUrl web dom d) acc).1.pagesVisited ≤
      acc.1.pagesVisited + urls.length := by
  intro urls
  induction urls with
  | nil =>
    intro acc
    rw [List.foldl_nil]
    omega
  | cons u us ih =>
    intro acc
    rw [List.foldl_cons]
    have h1 := ih (processUrl web dom d acc u)
    have h2 := processUrl_pages_le web dom d acc u
    rw [List.length_cons]
    omega

/-- One depth level never touches the level log. -/
theorem processLevel_levelLog (web : Web) (dom : String) (d : Nat) :
    ∀ (urls : List String) (acc : CrawlState × List String),
    (urls.foldl (processUrl web dom d) acc).1.levelLog = acc.1.levelLog := by
  intro urls
  induction urls with
  | nil =>
    intro acc
    rw [List.foldl_nil]
  | cons u us ih =>
    intro acc
    rw [List.foldl_cons, ih (processUrl web dom d acc u), processUrl_levelLog]

/-- One depth level adds only visits at the current depth. -/
theorem processLevel_visited_depth (web : Web) (dom : String) (d : Nat) :
    ∀ (urls : List String) (acc : CrawlState × List String),
    ∀ p ∈ (urls.foldl (processUrl web dom d) acc).1.visited,
      p ∈ acc.1.visited ∨ p.2 = d := by
  intro urls
  induction urls with
  | nil =>
    intro acc p hp
    rw [List.foldl_nil] at hp
    exact Or.inl hp
  | cons u us ih =>
    intro acc p hp
    rw [List.foldl_cons] at hp
    rcases ih (processUrl web dom d acc u) p hp with h | h
    · exact processUrl_visited_depth web dom d acc u p h
    · exact Or.inr h

/-- The loop only appends to the level log. -/
theorem crawlLoop_levelLog_prefix (web : Web) (dom : String) (maxPages : Nat) :
    ∀ (fuel depth : Nat) (level : List String) (st : CrawlState),
    ∃ t, (crawlLoop web dom maxPages fuel depth level st).levelLog = st.levelLog ++ t := by
  intro fuel
  induction fuel with
  | zero =>
    intro depth level st
    exact ⟨[], (List.append_nil _).symm⟩
  | succ fuel ih =>
    intro depth level st
    simp only [crawlLoop]
    split_ifs with h
    · obtain ⟨t, ht⟩ := ih (depth + 1)
        (processLevel web dom depth
          { st with levelLog := st.levelLog ++ [level.length] } level).2
        (processLevel web dom depth
          { st with levelLog := st.levelLog ++ [level.length] } level).1
      refine ⟨[level.length] ++ t, ?_⟩
      rw [ht]
      have hl : (processLevel web dom depth
          { st with levelLog := st.levelLog ++ [level.length] } level).1.levelLog =
          st.levelLog ++ [level.length] := processLevel_levelLog web dom depth level _
      rw [hl, List.append_assoc]
    · exact ⟨[], (List.append_nil _).symm⟩

/-- When every level the loop processed has size at most `L`, the final page
count stays below `maxPages - 1 + L`: the budget is re-checked only between
depth levels, so one level can overshoot by at most its own size. -/
theorem crawlLoop_pages_le (web : Web) (dom : String) (maxPages L : Nat) :
    ∀ (fuel depth : Nat) (level : List String) (st : CrawlState),
    st.pagesVisited ≤ maxPages - 1 + L →
    (∀ n ∈ (crawlLoop web dom maxPages fuel depth level st).levelLog, n ≤ L) →
    (crawlLoop web dom maxPages fuel depth level st).pagesVisited ≤ maxPages - 1 + L := by
  intro fuel
  induction fuel with
  | zero =>
    intro depth level st hst _
    exact hst
  | succ fuel ih =>
    intro depth level st hst hlog
    simp only [crawlLoop] at hlog ⊢
    split_ifs at hlog ⊢ with h
    · have hlvl : level.length ≤ L := by
        apply hlog
        obtain ⟨t, ht⟩ := crawlLoop_levelLog_prefix web dom maxPages fuel (depth + 1)
          (processLevel web dom depth
            { st with levelLog := st.levelLog ++ [level.length] } level).2
          (processLevel web dom depth
            { st with levelLog := st.levelLog ++ [level.length] } level).1
        rw [ht]
        have hl : (processLevel web dom depth
            { st with levelLog := st.levelLog ++ [level.length] } level).1.levelLog =
            st.levelLog ++ [level.length] := processLevel_levelLog web dom depth level _
        rw [hl, List.append_assoc]
        apply List.mem_append_right
        exact List.mem_append_left _ (List.mem_singleton.mpr rfl)
      apply ih
      · have hstep := processLevel_pages_le web dom depth level
          ({ st with levelLog := st.levelLog ++ [level.length] }, [])
        have hsmall : st.pagesVisited ≤ maxPages - 1 := by omega
        calc (processLevel web dom depth
              { st with levelLog := st.levelLog ++ [level.length] } level).1.pagesVisited
            ≤ st.pagesVisited + level.length := hstep
          _ ≤ maxPages - 1 + L := by omega
      · exact hlog
    · exact hst

/-- Every page fetch happens at depth at most `D` when the loop starts with
`depth + fuel ≤ D + 1`. -/
theorem crawlLoop_visited_depth (web : Web) (dom : String) (maxPages D : Nat) :
    ∀ (fuel depth : Nat) (level : List String) (st : CrawlState),
    depth + fuel ≤ D + 1 →
    (∀ p ∈ st.visited, p.2 ≤ D) →
    ∀ p ∈ (crawlLoop web dom maxPages fuel depth level st).visited, p.2 ≤ D := by
  intro fuel
  induction fuel with
  | zero =>
    intro depth level st _ hv
    exact hv
  | succ fuel ih =>
    intro depth level st hd hv
    simp only [crawlLoop]
    split_ifs with h
    · apply ih (depth + 1)
      · omega
      · intro p hp
        rcases processLevel_visited_depth web dom depth level
            ({ st with levelLog := st.levelLog ++ [level.length] }, []) p hp with h2 | h2
        · exact hv p h2
        · omega
    · exact hv

/-- C1 (counterexample): with `max_pages = 2` and three same-domain links on
the start page, the crawl visits 4 distinct pages — the budget is only
checked between depth levels, so all of depth level 1 is processed. -/
theorem c1_counterexample :
    (start_crawl web1 2 2 "http://ex.com/").pagesVisited = 4 ∧
    (start_crawl web1 2 2 "http://ex.com/").visited.length = 4 ∧
    ((start_crawl web1 2 2 "http://ex.com/").visited.map Prod.fst).Nodup ∧
    ¬ ((start_crawl web1 2 2 "http://ex.com/").pagesVisited ≤ 2) := by decide

/-- C1 (amended): the page budget is checked between depth levels, not
between pages, so the visited count is bounded by `maxPages - 1` plus the
size of the largest processed level (not by `maxPages`); the depth bound
holds as claimed: every page fetch happens at a frontier depth at most
`maxDepth`. -/
theorem c1_amended (web : Web) (maxPages maxDepth : Nat) (startUrl : String) (L : Nat)
    (hL : ∀ n ∈ (start_crawl web maxPages maxDepth startUrl).levelLog, n ≤ L) :
    (start_crawl web maxPages maxDepth startUrl).pagesVisited ≤ maxPages - 1 + L ∧
    ∀ p ∈ (start_crawl web maxPages maxDepth startUrl).visited, p.2 ≤ maxDepth := by
  constructor
  · exact crawlLoop_pages_le web (extract_domain startUrl) maxPages L (maxDepth + 1) 0
      [startUrl] _ (Nat.zero_le _) hL
  · exact crawlLoop_visited_depth web (extract_domain startUrl) maxPages maxDepth
      (maxDepth + 1) 0 [startUrl] _ (by omega)
      (fun p hp => absurd hp (List.not_mem_nil p))

/-- C1 (witness): the amended bound applied at the overrun example, whose
levels have sizes 1 and 3: the visit count 4 meets the bound `2 - 1 + 3`. -/
theorem c1_witness :
    (start_crawl web1 2 2 "http://ex.com/").pagesVisited ≤ 2 - 1 + 3 :=
  (c1_amended web1 2 2 "http://ex.com/" 3 (by decide)).1

/-- C8 (counterexample): a `max_depth = 0` crawl of a start page with
same-domain links still enqueues those links into the depth-1 frontier. -/
theorem c8_counterexample :
    ("http://ex.com/a", 1) ∈ (start_crawl web1 20 0 "http://ex.com/").enqueuedLog ∧
    "http://ex.com/a" ≠ "http://ex.com/" ∧
    (start_crawl web1 20 0 "http://ex.com/").visited = [("http://ex.com/", 0)] := by decide

/-- C8 (amended): with `max_depth = 0` no URL other than the start URL is
ever *visited* (every visit is the start URL at depth 0), but links found on
the start page are still enqueued — each enqueued URL carries target
depth 1, a level the loop never processes. -/
theorem c8_amended (web : Web) (maxPages : Nat) (startUrl : String) :
    (∀ p ∈ (start_crawl web maxPages 0 startUrl).visited, p.1 = startUrl ∧ p.2 = 0) ∧
    (∀ q ∈ (start_crawl web maxPages 0 startUrl).enqueuedLog, q.2 = 1) := by
  have hloop : start_crawl web maxPages 0 startUrl =
      if (0 : Nat) < maxPages then
        (processLevel web (extract_domain startUrl) 0
          { visited := [], pagesVisited := 0, elements := [],
            enqueuedLog := [], levelLog := [[startUrl].length] } [startUrl]).1
      else
        { visited := [], pagesVisited := 0, elements := [],
          enqueuedLog := [], levelLog := [] } := rfl
  rw [hloop]
  split_ifs with h
  · simp only [processLevel, List.foldl_cons, List.foldl_nil]
    constructor
    · intro p hp
      simp only [processUrl] at hp
      split_ifs at hp
      · exact absurd hp (List.not_mem_nil p)
      · rename_i hskip
        cases hlk : List.lookup startUrl web with
        | none =>
          rw [hlk] at hp
          exact absurd hp (List.not_mem_nil p)
        | some page =>
          rw [hlk] at hp
          rw [List.nil_append] at hp
          rw [List.mem_singleton] at hp
          rw [hp]
          exact ⟨rfl, rfl⟩
    · intro q hq
      simp only [processUrl] at hq
      split_ifs at hq
      · exact absurd hq (List.not_mem_nil q)
      · cases hlk : List.lookup startUrl web with
        | none =>
          rw [hlk] at hq
          exact absurd hq (List.not_mem_nil q)
        | some page =>
          rw [hlk] at hq
          rw [List.nil_append] at hq
          obtain ⟨l, _, hl⟩ := List.mem_map.mp hq
          rw [← hl]
  · exact ⟨fun p hp => absurd hp (List.not_mem_nil p),
      fun q hq => absurd hq (List.not_mem_nil q)⟩

/-- C8 (witness): the amended theorem applied at the concrete example. -/
theorem c8_witness :
    ("http://ex.com/", (0 : Nat)).1 = "http://ex.com/" ∧
    ("http://ex.com/", (0 : Nat)).2 = 0 :=
  (c8_amended web1 20 "http://ex.com/").1 ("http://ex.com/", 0) (by decide)

/-! ## C9: error propagation -/

/-- C9 (counterexample): `analyze_and_generate` does *not* propagate a
session-establishment failure — it returns normally (`Except.ok`) with an
error-marked result dictionary in place of raising. -/
theorem c9_counterexample :
    analyze_and_generate false "http://x.com/" ⟨"T", []⟩ =
      (.ok { errorMsg := some "Could not initialize any web driver",
             pageUrl := "http://x.com/", pageTitle := "Error",
             elements := [], userFlows := [] }, false) := rfl

/-- C9 (amended): `start_crawl` propagates a session-establishment failure
to its caller, releases the session whenever one was acquired, and never
raises once a session exists (page-level failures are swallowed);
`analyze_and_generate`, by contrast, catches the failure and returns an
error-marked result dictionary with empty elements and flows instead of
propagating it. -/
theorem c9_amended (web : Web) (maxPages maxDepth : Nat) (startUrl url : String)
    (page : PageModel) (setupOk : Bool) :
    ((start_crawl_call false web maxPages maxDepth startUrl).outcome =
      .error "could not establish a rendering session") ∧
    (∃ els, (start_crawl_call true web maxPages maxDepth startUrl).outcome = .ok els) ∧
    ((start_crawl_call setupOk web maxPages maxDepth startUrl).sessionAcquired = true →
      (start_crawl_call setupOk web maxPages maxDepth startUrl).sessionReleased = true) ∧
    (∃ r, (analyze_and_generate false url page).1 = .ok r ∧ r.errorMsg.isSome = true ∧
      r.elements = [] ∧ r.userFlows = []) := by
  refine ⟨rfl, ⟨_, rfl⟩, ?_, ⟨_, rfl, rfl, rfl, rfl⟩⟩
  intro h
  cases setupOk with
  | true => rfl
  | false => exact Bool.noConfusion h

/-- C9 (witness): the amended theorem applied at a concrete crawl. -/
theorem c9_witness :
    (start_crawl_call true web1 2 2 "http://ex.com/").sessionReleased = true ∧
    (start_crawl_call false web1 2 2 "http://ex.com/").outcome =
      .error "could not establish a rendering session" :=
  ⟨(c9_amended web1 2 2 "http://ex.com/" "http://x.com/" ⟨"T", []⟩ true).2.2.1 rfl,
   (c9_amended web1 2 2 "http://ex.com/" "http://x.com/" ⟨"T", []⟩ true).1⟩

end SiteAnalyzer
